import Mathlib

/-!
Shallow embedding of `src/router.js`, the single source file of the MA-BE
repository: an Express router exposing signup/login over a `users` table,
a Gemini advice proxy, and CRUD over a `chats` table scoped by the account
id resolved from an email.

Modelling conventions:
* JavaScript strings are Lean `String`s; `s.substring(0, n)` is `jsSubstring`
  (take of the character list) and `s.length` is `jsLength`.
* Request-body / query values that may be absent (`undefined`) are
  `Option String`; JavaScript truthiness of such a value is `truthy`
  (absent and the empty string are falsy).
* The SQL store is an explicit state `DB`: a list of user rows, a list of
  chat rows, and the two SERIAL sequences. `CURRENT_TIMESTAMP` is a `now`
  parameter. `WHERE email = $1` with an absent parameter matches no row
  (SQL NULL), which `findUser` reflects.
* bcrypt is an external collaborator: handlers take the hash / compare
  functions as parameters; `bcrypt.hash` and `bcrypt.compare` on an absent
  password throw, which the embedding returns directly as the catch-branch
  response of the handler.
* Each handler returns an `HResult` (HTTP status plus JSON body) and, when
  it writes, the new `DB`.
-/

/-- JavaScript `s.substring(0, n)`: the first `n` characters of `s`. -/
def jsSubstring (s : String) (n : Nat) : String :=
  ⟨s.data.take n⟩

/-- JavaScript `s.length` (character count of the embedded string). -/
def jsLength (s : String) : Nat :=
  s.data.length

/-- JavaScript truthiness of a possibly-absent string value:
`undefined` and `""` are falsy, every other string is truthy. -/
def truthy : Option String → Bool
  | none => false
  | some s => !s.isEmpty

/-- Row of the `users` table: `id SERIAL PRIMARY KEY, email UNIQUE NOT NULL,
password NOT NULL` (the stored password is the bcrypt hash). -/
structure User where
  id : Nat
  email : String
  password : String
deriving DecidableEq

/-- Row of the `chats` table: `id SERIAL PRIMARY KEY, user_id REFERENCES
users(id), title, user_input, advice_output, created_at, updated_at`. -/
structure Chat where
  id : Nat
  user_id : Nat
  title : String
  user_input : String
  advice_output : String
  created_at : Nat
  updated_at : Nat
deriving DecidableEq

/-- The relational store: both tables plus the two SERIAL sequences. -/
structure DB where
  users : List User
  chats : List Chat
  nextUserId : Nat
  nextChatId : Nat
deriving DecidableEq

/-- Handler outcome: a success status with a JSON value, or an error status
with the error message string of the JSON error body. -/
inductive HResult (α : Type) where
  | ok (status : Nat) (val : α)
  | err (status : Nat) (msg : String)
deriving DecidableEq

/-- HTTP status of a handler outcome. -/
def HResult.statusOf : HResult α → Nat
  | .ok s _ => s
  | .err s _ => s

/-- The query `SELECT ... FROM users WHERE email = $1`: first row whose email
matches. An absent parameter is SQL NULL and matches no row. -/
def findUser (db : DB) (email : Option String) : Option User :=
  match email with
  | none => none
  | some e => db.users.find? (fun u => u.email == e)

/-- The `WHERE id = $1 AND user_id = $2` row predicate used by the
get / update / delete chat queries. -/
def chatMatch (id userId : Nat) (c : Chat) : Bool :=
  c.id == id && c.user_id == userId

/-- Ordering used by `ORDER BY updated_at DESC`: most recently updated first. -/
def recentFirst (a b : Chat) : Prop :=
  b.updated_at ≤ a.updated_at

instance : DecidableRel recentFirst := fun a b => Nat.decLe b.updated_at a.updated_at

instance : IsTotal Chat recentFirst := ⟨fun a b => Nat.le_total b.updated_at a.updated_at⟩

instance : IsTrans Chat recentFirst := ⟨fun _ _ _ h h' => Nat.le_trans h' h⟩

/-- Handler of `POST /signup`. `bcrypt.hash(password, 10)` throws when the
password is absent; the INSERT throws on a duplicate email, on an absent
(NULL) email, or on any unexpected store fault (`storeFault`); every throw is
caught and answered with 400 and the fixed message. -/
def signup (hash : String → String) (db : DB) (storeFault : Bool)
    (email password : Option String) : HResult String × DB :=
  match password with
  | none => (.err 400 "User already exists or invalid data", db)
  | some pw =>
    if storeFault || email.isNone
        || db.users.any (fun u => u.email == email.getD "") then
      (.err 400 "User already exists or invalid data", db)
    else
      (.ok 201 "User registered successfully",
       { db with
          users := db.users ++ [⟨db.nextUserId, email.getD "", hash pw⟩],
          nextUserId := db.nextUserId + 1 })

/-- Handler of `POST /login`: look the user up by email (400 when absent),
then `bcrypt.compare` the password against the stored hash (401 on mismatch);
`bcrypt.compare` throws on an absent password, which the catch branch turns
into 500. -/
def login (compare : String → String → Bool) (db : DB)
    (email password : Option String) : HResult String :=
  match findUser db email with
  | none => .err 400 "User not found"
  | some u =>
    match password with
    | none => .err 500 "Server error"
    | some pw =>
      if compare pw u.password then .ok 200 "Login successful"
      else .err 401 "Invalid credentials"

/-- Outcome of the one outbound Gemini call: HTTP ok flag and status,
candidate answers, and the error message of the provider when present. -/
structure GeminiResponse where
  ok : Bool
  status : Nat
  candidates : List String
  errMsg : Option String

/-- Handler of `POST /api/generate`: 400 when `userInput` is falsy, 500 when
the provider credential is unset, else one provider call; the returned flag
records whether the provider was called. -/
def generateAdvice (apiKey : Option String) (provider : String → GeminiResponse)
    (userInput : Option String) : HResult (List String) × Bool :=
  if !truthy userInput then
    (.err 400 "userInput is required", false)
  else if !truthy apiKey then
    (.err 500 "API key not configured", false)
  else
    let r := provider (userInput.getD "")
    if !r.ok then
      (.err r.status (r.errMsg.getD "Gemini API error"), true)
    else if r.candidates.isEmpty then
      (.err 500 "No response generated", true)
    else
      (.ok 200 r.candidates, true)

/-- Handler of `GET /api/chats`: 400 when the email query value is falsy,
404 when no user has that email, else all chats of the resolved account
ordered by `updated_at DESC`. -/
def listChats (db : DB) (email : Option String) : HResult (List Chat) :=
  if !truthy email then .err 400 "Email is required"
  else
    match findUser db email with
    | none => .err 404 "User not found"
    | some u =>
      .ok 200 (List.insertionSort recentFirst
        (db.chats.filter (fun c => c.user_id == u.id)))

/-- Handler of `GET /api/chats/:id`: 400 when the email query value is falsy,
404 when no user has that email or no chat with that id belongs to the
resolved account. -/
def getChat (db : DB) (email : Option String) (id : Nat) : HResult Chat :=
  if !truthy email then .err 400 "Email is required"
  else
    match findUser db email with
    | none => .err 404 "User not found"
    | some u =>
      match db.chats.find? (chatMatch id u.id) with
      | none => .err 404 "Chat not found"
      | some c => .ok 200 c

/-- Body of `POST /api/chats`. -/
structure CreateBody where
  email : Option String
  userInput : Option String
  adviceOutput : Option String
  title : Option String

/-- Default chat title of the create handler:
`userInput.substring(0, 50) + (userInput.length > 50 ? (three dots) : "")`. -/
def defaultTitle (userInput : String) : String :=
  jsSubstring userInput 50 ++ (if 50 < jsLength userInput then "..." else "")

/-- Handler of `POST /api/chats`: 400 when email, userInput or adviceOutput
is falsy, 404 when the email resolves to no user; the stored title is the
supplied one when truthy (`title || default`), else `defaultTitle`. -/
def createChat (db : DB) (now : Nat) (b : CreateBody) : HResult Chat × DB :=
  if !truthy b.email || !truthy b.userInput || !truthy b.adviceOutput then
    (.err 400 "Email, userInput, and adviceOutput are required", db)
  else
    match findUser db b.email with
    | none => (.err 404 "User not found", db)
    | some u =>
      let ui := b.userInput.getD ""
      let chatTitle := if truthy b.title then b.title.getD "" else defaultTitle ui
      let c : Chat :=
        ⟨db.nextChatId, u.id, chatTitle, ui, b.adviceOutput.getD "", now, now⟩
      (.ok 201 c,
       { db with chats := db.chats ++ [c], nextChatId := db.nextChatId + 1 })

/-- Body of `PUT /api/chats/:id`; a `none` field was not in the request. -/
structure UpdateBody where
  email : Option String
  userInput : Option String
  adviceOutput : Option String
  title : Option String

/-- Handler of `PUT /api/chats/:id`: 400 when email is falsy, 404 when the
email resolves to no user, then 400 when no updatable field was supplied
(`title !== undefined` tests, so a supplied empty string counts), then the
dynamic UPDATE sets exactly the supplied columns and refreshes `updated_at`,
404 when no row matched `id AND user_id`. -/
def updateChat (db : DB) (now : Nat) (id : Nat) (b : UpdateBody) :
    HResult Chat × DB :=
  if !truthy b.email then (.err 400 "Email is required", db)
  else
    match findUser db b.email with
    | none => (.err 404 "User not found", db)
    | some u =>
      if b.title.isNone && b.userInput.isNone && b.adviceOutput.isNone then
        (.err 400 "No fields to update", db)
      else
        match db.chats.find? (chatMatch id u.id) with
        | none => (.err 404 "Chat not found", db)
        | some c =>
          let c' : Chat :=
            { c with
                title := b.title.getD c.title,
                user_input := b.userInput.getD c.user_input,
                advice_output := b.adviceOutput.getD c.advice_output,
                updated_at := now }
          (.ok 200 c',
           { db with
              chats := db.chats.map
                (fun x => if chatMatch id u.id x then c' else x) })

/-- Handler of `DELETE /api/chats/:id`: 400 when the email query value is
falsy, 404 when the email resolves to no user or the DELETE matched no row,
else the matching row is removed and success confirmed. -/
def deleteChat (db : DB) (email : Option String) (id : Nat) :
    HResult String × DB :=
  if !truthy email then (.err 400 "Email is required", db)
  else
    match findUser db email with
    | none => (.err 404 "User not found", db)
    | some u =>
      if (db.chats.filter (chatMatch id u.id)).isEmpty then
        (.err 404 "Chat not found", db)
      else
        (.ok 200 "Chat deleted successfully",
         { db with chats := db.chats.filter (fun c => !chatMatch id u.id c) })

/-- Concrete bcrypt hash stand-in used to instantiate witnesses. -/
def hash0 : String → String := id

/-- Concrete bcrypt compare stand-in matching `hash0`. -/
def cmp0 : String → String → Bool := fun p h => p == h

/-- Sample store with two accounts owning one chat each. -/
def dbC1 : DB := ⟨[⟨1, "a@x.com", "pw1"⟩, ⟨2, "b@x.com", "pw2"⟩],
  [⟨1, 1, "tA", "uA", "aA", 3, 3⟩, ⟨2, 2, "tB", "uB", "aB", 4, 4⟩], 3, 3⟩

/-- Sample store with one account and no chats. -/
def dbC2 : DB := ⟨[⟨1, "a@x.com", "pw1"⟩], [], 2, 1⟩

/-- Sample store with one account and no chats. -/
def dbC3 : DB := ⟨[⟨1, "a@x.com", "pw1"⟩], [], 2, 1⟩

/-- Sample store with one account owning one chat. -/
def dbC5 : DB := ⟨[⟨1, "a@x.com", "pw1"⟩], [⟨1, 1, "t", "ui", "ao", 3, 3⟩], 2, 2⟩

/-- Sample store with one account owning one chat. -/
def dbC6 : DB := ⟨[⟨1, "a@x.com", "pw1"⟩], [⟨1, 1, "t", "ui", "ao", 3, 3⟩], 2, 2⟩

/-- Sample store with one account owning two chats with distinct updates. -/
def dbC7 : DB := ⟨[⟨1, "a@x.com", "pw1"⟩],
  [⟨1, 1, "t1", "u1", "a1", 3, 3⟩, ⟨2, 1, "t2", "u2", "a2", 4, 7⟩], 2, 3⟩

/-- Sample store with one registered account. -/
def dbC10 : DB := ⟨[⟨1, "a@x.com", "pw1"⟩], [], 2, 1⟩

/-- Truthiness of a present string value is exactly being nonempty. -/
theorem truthy_some_iff {e : String} : truthy (some e) = true ↔ e ≠ "" := by
  simp [truthy, Bool.eq_false_iff, String.isEmpty_iff]

/-- Taking at least the whole length of a string returns the string. -/
theorem jsSubstring_of_le {s : String} {n : Nat} (h : jsLength s ≤ n) :
    jsSubstring s n = s :=
  congrArg String.mk (List.take_of_length_le h)

/-- Claim C1: the list and get operations scoped to the email of account A
only ever return conversations owned by A; they never return a conversation
owned by a distinct account B, because every store query is filtered by the
account id resolved from the email. -/
theorem C1_scoped_access (db : DB) (eA : String) (uA uB : User)
    (hA : findUser db (some eA) = some uA) (hne : uB.id ≠ uA.id) :
    (∀ l, listChats db (some eA) = .ok 200 l →
        ∀ c ∈ l, c.user_id = uA.id ∧ c.user_id ≠ uB.id) ∧
    (∀ id c, getChat db (some eA) id = .ok 200 c →
        c.user_id = uA.id ∧ c.user_id ≠ uB.id) := by
  constructor
  · intro l hl c hc
    unfold listChats at hl
    split at hl
    · exact nomatch hl
    · split at hl
      · exact nomatch hl
      · rename_i u heq
        rw [hA, Option.some.injEq] at heq
        subst heq
        obtain ⟨-, rfl⟩ := HResult.ok.injEq .. |>.mp hl
        have hmem : c ∈ db.chats.filter (fun x => x.user_id == uA.id) :=
          (List.mem_insertionSort recentFirst).mp hc
        have := (List.mem_filter.mp hmem).2
        have hcu : c.user_id = uA.id := by simpa using this
        exact ⟨hcu, by rw [hcu]; exact fun h => hne h.symm⟩
  · intro id c hgc
    unfold getChat at hgc
    split at hgc
    · exact nomatch hgc
    · split at hgc
      · exact nomatch hgc
      · rename_i u heq
        rw [hA, Option.some.injEq] at heq
        subst heq
        split at hgc
        · exact nomatch hgc
        · rename_i c0 hfind
          obtain ⟨-, rfl⟩ := HResult.ok.injEq .. |>.mp hgc
          have := List.find?_some hfind
          have hcu : c0.user_id = uA.id := by
            simp [chatMatch] at this
            exact this.2
          exact ⟨hcu, by rw [hcu]; exact fun h => hne h.symm⟩

/-- Witness for C1 on a concrete two-account store. -/
theorem C1_witness :
    (∀ l, listChats dbC1 (some "a@x.com") = .ok 200 l →
        ∀ c ∈ l, c.user_id = 1 ∧ c.user_id ≠ 2) ∧
    (∀ id c, getChat dbC1 (some "a@x.com") id = .ok 200 c →
        c.user_id = 1 ∧ c.user_id ≠ 2) :=
  C1_scoped_access dbC1 "a@x.com" ⟨1, "a@x.com", "pw1"⟩ ⟨2, "b@x.com", "pw2"⟩
    (by decide) (by decide)

/-- Counterexample to C2 as stated: for an unregistered email the login
handler answers HTTP 400, not the 404 that the error taxonomy assigns to
NotFound. -/
theorem C2_counterexample :
    login cmp0 ⟨[], [], 1, 1⟩ (some "a@x.com") (some "pw") = .err 400 "User not found" ∧
    (login cmp0 ⟨[], [], 1, 1⟩ (some "a@x.com") (some "pw")).statusOf ≠ 404 := by
  decide

/-- Claim C2 (amended): for every registered email, authenticate with the
correct password succeeds (200); with a wrong password it fails with
InvalidCredentials (401); for every unregistered email it fails with
NotFound, which the login handler maps to HTTP 400, not the 404 of the
error taxonomy. -/
theorem C2_login_outcomes (compare : String → String → Bool) (hash : String → String)
    (hcmp : ∀ p q, compare p (hash q) = (p == q))
    (db : DB) (e pw wrong : String) (hw : wrong ≠ pw) :
    (∀ u, findUser db (some e) = some u → u.password = hash pw →
        login compare db (some e) (some pw) = .ok 200 "Login successful" ∧
        login compare db (some e) (some wrong) = .err 401 "Invalid credentials") ∧
    (findUser db (some e) = none →
        login compare db (some e) (some pw) = .err 400 "User not found") := by
  constructor
  · intro u hu hpw
    constructor
    · simp [login, hu, hpw, hcmp]
    · simp [login, hu, hpw, hcmp, hw]
  · intro h
    unfold login
    rw [h]

/-- Witness for C2 on a concrete one-account store. -/
theorem C2_witness :
    login cmp0 dbC2 (some "a@x.com") (some "pw1") = .ok 200 "Login successful" ∧
    login cmp0 dbC2 (some "a@x.com") (some "pw2") = .err 401 "Invalid credentials" ∧
    login cmp0 dbC2 (some "z@x.com") (some "pw1") = .err 400 "User not found" := by
  refine ⟨?_, ?_, ?_⟩
  · exact ((C2_login_outcomes cmp0 hash0 (fun p q => rfl) dbC2 "a@x.com" "pw1" "pw2"
      (by decide)).1 ⟨1, "a@x.com", "pw1"⟩ (by decide) rfl).1
  · exact ((C2_login_outcomes cmp0 hash0 (fun p q => rfl) dbC2 "a@x.com" "pw1" "pw2"
      (by decide)).1 ⟨1, "a@x.com", "pw1"⟩ (by decide) rfl).2
  · exact (C2_login_outcomes cmp0 hash0 (fun p q => rfl) dbC2 "z@x.com" "pw1" "pw2"
      (by decide)).2 (by decide)

/-- Counterexample to C3 as stated: with an email that resolves to no
account and no updatable field supplied, update answers 404 NotFound, not
the claimed 400 ValidationError. -/
theorem C3_counterexample :
    (updateChat ⟨[], [], 1, 1⟩ 0 1 ⟨some "a@x.com", none, none, none⟩).1
      = .err 404 "User not found" ∧
    ((updateChat ⟨[], [], 1, 1⟩ 0 1 ⟨some "a@x.com", none, none, none⟩).1).statusOf ≠ 400 := by
  decide

/-- Claim C3 (amended): for every update call whose body supplies none of
the updatable fields (title, userInput, adviceOutput) and whose email
resolves to an existing account, the operation fails with ValidationError
(HTTP 400) and leaves the store unchanged; when the email does not resolve,
the earlier NotFound check answers 404 instead. -/
theorem C3_update_no_fields (db : DB) (now id : Nat) (e : String) (u : User)
    (b : UpdateBody) (hne : e ≠ "") (hu : findUser db (some e) = some u)
    (he : b.email = some e)
    (ht : b.title = none) (hui : b.userInput = none) (hao : b.adviceOutput = none) :
    updateChat db now id b = (.err 400 "No fields to update", db) := by
  unfold updateChat
  rw [he, hu, ht, hui, hao]
  simp [truthy_some_iff.mpr hne]

/-- Witness for C3 on a concrete one-account store. -/
theorem C3_witness :
    updateChat dbC3 7 1 ⟨some "a@x.com", none, none, none⟩
      = (.err 400 "No fields to update", dbC3) :=
  C3_update_no_fields dbC3 7 1 "a@x.com" ⟨1, "a@x.com", "pw1"⟩
    ⟨some "a@x.com", none, none, none⟩ (by decide) (by decide) rfl rfl rfl rfl

/-- Claim C4: for every create call with no title supplied, if userInput is
longer than 50 characters the stored title is its first 50 characters
followed by the truncation marker; if userInput is at most 50 characters
the stored title equals userInput exactly. -/
theorem C4_default_title (db : DB) (now : Nat) (b : CreateBody) (c : Chat) (db' : DB)
    (ht : b.title = none)
    (h : createChat db now b = (.ok 201 c, db')) :
    (jsLength (b.userInput.getD "") ≤ 50 → c.title = b.userInput.getD "") ∧
    (50 < jsLength (b.userInput.getD "") →
      c.title = jsSubstring (b.userInput.getD "") 50 ++ "...") := by
  unfold createChat at h
  split at h
  · exact nomatch congrArg Prod.fst h
  · split at h
    · exact nomatch congrArg Prod.fst h
    · rename_i u heq
      rw [ht] at h
      simp only [truthy] at h
      obtain ⟨h1, -⟩ := Prod.mk.injEq .. |>.mp h
      obtain ⟨-, rfl⟩ := HResult.ok.injEq .. |>.mp h1
      constructor
      · intro hle
        show defaultTitle (b.userInput.getD "") = b.userInput.getD ""
        unfold defaultTitle
        rw [if_neg (by omega), String.append_empty, jsSubstring_of_le hle]
      · intro hgt
        show defaultTitle (b.userInput.getD "") = jsSubstring (b.userInput.getD "") 50 ++ "..."
        unfold defaultTitle
        rw [if_pos hgt]

/-- Witness for C4 on a concrete create call with a short userInput. -/
theorem C4_witness :
    (jsLength "hello" ≤ 50 → ("hello" : String) = "hello") ∧
    (50 < jsLength "hello" → ("hello" : String) = jsSubstring "hello" 50 ++ "...") :=
  C4_default_title dbC3 5 ⟨some "a@x.com", some "hello", some "out", none⟩
    ⟨1, 1, "hello", "hello", "out", 5, 5⟩
    ⟨[⟨1, "a@x.com", "pw1"⟩], [⟨1, 1, "hello", "hello", "out", 5, 5⟩], 2, 2⟩
    rfl (by decide)

/-- Claim C5: every successful update keeps the omitted fields among title,
user_input and advice_output at their previous values, sets the supplied
ones to the supplied values, refreshes updated_at, and leaves id,
created_at, the owning account and the users table unchanged. -/
theorem C5_update_frame (db : DB) (now id : Nat) (b : UpdateBody) (c' : Chat) (db' : DB)
    (h : updateChat db now id b = (.ok 200 c', db')) :
    ∃ u c, findUser db b.email = some u ∧
      db.chats.find? (chatMatch id u.id) = some c ∧
      c'.id = c.id ∧ c'.user_id = c.user_id ∧ c'.created_at = c.created_at ∧
      c'.title = b.title.getD c.title ∧
      c'.user_input = b.userInput.getD c.user_input ∧
      c'.advice_output = b.adviceOutput.getD c.advice_output ∧
      c'.updated_at = now ∧
      db'.users = db.users ∧
      db'.chats = db.chats.map (fun x => if chatMatch id u.id x then c' else x) := by
  unfold updateChat at h
  split at h
  · exact nomatch congrArg Prod.fst h
  · split at h
    · exact nomatch congrArg Prod.fst h
    · rename_i u heq
      split at h
      · exact nomatch congrArg Prod.fst h
      · split at h
        · exact nomatch congrArg Prod.fst h
        · rename_i c hfind
          obtain ⟨h1, h2⟩ := Prod.mk.injEq .. |>.mp h
          obtain ⟨-, rfl⟩ := HResult.ok.injEq .. |>.mp h1
          refine ⟨u, c, heq, hfind, rfl, rfl, rfl, rfl, rfl, rfl, rfl, ?_, ?_⟩
          · rw [← h2]
          · rw [← h2]

/-- Witness for C5 on a concrete update supplying only user_input. -/
theorem C5_witness :
    ∃ u c, findUser dbC5 (some "a@x.com") = some u ∧
      dbC5.chats.find? (chatMatch 1 u.id) = some c ∧
      (⟨1, 1, "t", "newui", "ao", 3, 9⟩ : Chat).id = c.id ∧
      (⟨1, 1, "t", "newui", "ao", 3, 9⟩ : Chat).user_id = c.user_id ∧
      (⟨1, 1, "t", "newui", "ao", 3, 9⟩ : Chat).created_at = c.created_at ∧
      (⟨1, 1, "t", "newui", "ao", 3, 9⟩ : Chat).title = (none : Option String).getD c.title ∧
      (⟨1, 1, "t", "newui", "ao", 3, 9⟩ : Chat).user_input
        = ((some "newui" : Option String)).getD c.user_input ∧
      (⟨1, 1, "t", "newui", "ao", 3, 9⟩ : Chat).advice_output
        = (none : Option String).getD c.advice_output ∧
      (⟨1, 1, "t", "newui", "ao", 3, 9⟩ : Chat).updated_at = 9 ∧
      (⟨[⟨1, "a@x.com", "pw1"⟩], [⟨1, 1, "t", "newui", "ao", 3, 9⟩], 2, 2⟩ : DB).users
        = dbC5.users ∧
      (⟨[⟨1, "a@x.com", "pw1"⟩], [⟨1, 1, "t", "newui", "ao", 3, 9⟩], 2, 2⟩ : DB).chats
        = dbC5.chats.map (fun x => if chatMatch 1 u.id x then ⟨1, 1, "t", "newui", "ao", 3, 9⟩ else x) :=
  C5_update_frame dbC5 9 1 ⟨some "a@x.com", some "newui", none, none⟩
    ⟨1, 1, "t", "newui", "ao", 3, 9⟩
    ⟨[⟨1, "a@x.com", "pw1"⟩], [⟨1, 1, "t", "newui", "ao", 3, 9⟩], 2, 2⟩
    (by decide)

/-- Claim C6: delete is idempotent in effect: for a conversation id owned by
the resolved account, the first delete removes the record and confirms
success, and a second delete of the same id by the same account fails with
NotFound. -/
theorem C6_delete_idempotent (db : DB) (e : String) (u : User) (id : Nat)
    (hne : e ≠ "") (hu : findUser db (some e) = some u)
    (hex : ∃ c ∈ db.chats, chatMatch id u.id c = true) :
    ∃ db', deleteChat db (some e) id = (.ok 200 "Chat deleted successfully", db') ∧
      db'.chats = db.chats.filter (fun c => !chatMatch id u.id c) ∧
      deleteChat db' (some e) id = (.err 404 "Chat not found", db') := by
  obtain ⟨c0, hc0, hm0⟩ := hex
  have hfil : (db.chats.filter (chatMatch id u.id)).isEmpty = false := by
    rw [List.isEmpty_eq_false]
    intro hnil
    exact absurd hm0 (by simpa using List.filter_eq_nil_iff.mp hnil c0 hc0)
  refine ⟨{ db with chats := db.chats.filter (fun c => !chatMatch id u.id c) }, ?_, rfl, ?_⟩
  · unfold deleteChat
    rw [hu]
    simp [truthy_some_iff.mpr hne, hfil]
  · unfold deleteChat
    have hu' : findUser { db with chats := db.chats.filter (fun c => !chatMatch id u.id c) }
        (some e) = some u := hu
    rw [hu']
    clear hu'
    have hempty : ((db.chats.filter (fun c => !chatMatch id u.id c)).filter
        (chatMatch id u.id)).isEmpty = true := by
      rw [List.filter_filter, List.isEmpty_eq_true, List.filter_eq_nil_iff]
      intro a _
      simp only [Bool.and_eq_true, Bool.not_eq_true']
      rintro ⟨h1, h2⟩
      rw [h1] at h2
      exact nomatch h2
    simp [truthy_some_iff.mpr hne, hempty]

/-- Witness for C6 on a concrete store owning one chat. -/
theorem C6_witness :
    ∃ db', deleteChat dbC6 (some "a@x.com") 1 = (.ok 200 "Chat deleted successfully", db') ∧
      db'.chats = dbC6.chats.filter (fun c => !chatMatch 1 1 c) ∧
      deleteChat db' (some "a@x.com") 1 = (.err 404 "Chat not found", db') :=
  C6_delete_idempotent dbC6 "a@x.com" ⟨1, "a@x.com", "pw1"⟩ 1 (by decide) (by decide)
    ⟨⟨1, 1, "t", "ui", "ao", 3, 3⟩, by decide, by decide⟩

/-- Claim C7: for a registered email, list returns exactly the conversations
owned by the resolved account, ordered by most-recently-updated first
(descending updated_at); for an unknown email, list fails with NotFound
(404). -/
theorem C7_list_order (db : DB) (e : String) (hne : e ≠ "") :
    (∀ u, findUser db (some e) = some u →
      ∃ l, listChats db (some e) = .ok 200 l ∧
        l.Perm (db.chats.filter (fun c => c.user_id == u.id)) ∧
        l.Sorted recentFirst) ∧
    (findUser db (some e) = none →
      listChats db (some e) = .err 404 "User not found") := by
  constructor
  · intro u hu
    refine ⟨List.insertionSort recentFirst
      (db.chats.filter (fun c => c.user_id == u.id)), ?_, ?_, ?_⟩
    · unfold listChats
      rw [hu]
      simp [truthy_some_iff.mpr hne]
    · exact List.perm_insertionSort recentFirst _
    · exact List.sorted_insertionSort recentFirst _
  · intro h
    unfold listChats
    rw [h]
    simp [truthy_some_iff.mpr hne]

/-- Witness for C7 on a concrete store with two chats, plus an unknown
email. -/
theorem C7_witness :
    (∃ l, listChats dbC7 (some "a@x.com") = .ok 200 l ∧
      l.Perm (dbC7.chats.filter (fun c => c.user_id == 1)) ∧
      l.Sorted recentFirst) ∧
    listChats dbC7 (some "zz") = .err 404 "User not found" :=
  ⟨(C7_list_order dbC7 "a@x.com" (by decide)).1 ⟨1, "a@x.com", "pw1"⟩ (by decide),
   (C7_list_order dbC7 "zz" (by decide)).2 (by decide)⟩

/-- Claim C8: generateAdvice with an empty (or absent) userInput fails with
ValidationError (HTTP 400) and never issues a call to the external
provider. -/
theorem C8_generate_empty_input (apiKey : Option String)
    (provider : String → GeminiResponse) :
    generateAdvice apiKey provider (some "") = (.err 400 "userInput is required", false) ∧
    generateAdvice apiKey provider none = (.err 400 "userInput is required", false) := by
  constructor <;> rfl

/-- Claim C9: a create call supplying title as the empty string has the
supplied title ignored and stores the default derived from userInput
(truthiness check `title || default`), while an update call supplying title
as the empty string applies it (presence check `title !== undefined`). -/
theorem C9_empty_title_asymmetry :
    (∀ (db : DB) (now : Nat) (b : CreateBody) (c : Chat) (db' : DB),
      b.title = some "" → createChat db now b = (.ok 201 c, db') →
        c.title = defaultTitle (b.userInput.getD "")) ∧
    (∀ (db : DB) (now id : Nat) (b : UpdateBody) (c' : Chat) (db' : DB),
      b.title = some "" → updateChat db now id b = (.ok 200 c', db') →
        c'.title = "") := by
  constructor
  · intro db now b c db' ht h
    unfold createChat at h
    split at h
    · exact nomatch congrArg Prod.fst h
    · split at h
      · exact nomatch congrArg Prod.fst h
      · rw [ht] at h
        simp only [truthy, String.isEmpty, Bool.not_true] at h
        obtain ⟨h1, -⟩ := Prod.mk.injEq .. |>.mp h
        obtain ⟨-, rfl⟩ := HResult.ok.injEq .. |>.mp h1
        rfl
  · intro db now id b c' db' ht h
    unfold updateChat at h
    split at h
    · exact nomatch congrArg Prod.fst h
    · split at h
      · exact nomatch congrArg Prod.fst h
      · split at h
        · exact nomatch congrArg Prod.fst h
        · split at h
          · exact nomatch congrArg Prod.fst h
          · obtain ⟨h1, -⟩ := Prod.mk.injEq .. |>.mp h
            obtain ⟨-, rfl⟩ := HResult.ok.injEq .. |>.mp h1
            rw [ht]
            rfl

/-- Witness for C9 on concrete create and update calls with an empty
title. -/
theorem C9_witness :
    ("hello" : String) = defaultTitle (((some "hello") : Option String).getD "") ∧
    ("" : String) = "" := by
  constructor
  · exact (C9_empty_title_asymmetry).1 dbC3 5
      ⟨some "a@x.com", some "hello", some "out", some ""⟩
      ⟨1, 1, "hello", "hello", "out", 5, 5⟩
      ⟨[⟨1, "a@x.com", "pw1"⟩], [⟨1, 1, "hello", "hello", "out", 5, 5⟩], 2, 2⟩
      rfl (by decide)
  · exact (C9_empty_title_asymmetry).2 dbC5 9 1
      ⟨some "a@x.com", none, none, some ""⟩
      ⟨1, 1, "", "ui", "ao", 3, 9⟩
      ⟨[⟨1, "a@x.com", "pw1"⟩], [⟨1, 1, "", "ui", "ao", 3, 9⟩], 2, 2⟩
      rfl (by decide)

/-- Claim C10: every signup failure (duplicate email, missing password
making the hash step throw, absent email, or any unexpected store fault) is
returned as HTTP 400 with the fixed message, and signup never answers
500. -/
theorem C10_signup_failures (hash : String → String) (db : DB) (fault : Bool)
    (email pw : Option String) :
    ((signup hash db fault email pw).1.statusOf = 201 ∨
      (signup hash db fault email pw).1 = .err 400 "User already exists or invalid data") ∧
    (signup hash db fault email pw).1.statusOf ≠ 500 ∧
    ((fault = true ∨ pw = none ∨ (∃ u ∈ db.users, email = some u.email)) →
      (signup hash db fault email pw).1 = .err 400 "User already exists or invalid data") := by
  rcases pw with - | p
  · exact ⟨Or.inr rfl, by show (400 : Nat) ≠ 500; decide, fun _ => rfl⟩
  · by_cases hcond : (fault || email.isNone
        || db.users.any (fun u => u.email == email.getD "")) = true
    · have hres : (signup hash db fault email (some p)).1
          = .err 400 "User already exists or invalid data" := by
        simp [signup, hcond]
      refine ⟨Or.inr hres, ?_, fun _ => hres⟩
      rw [hres]
      decide
    · have hres : (signup hash db fault email (some p)).1
          = .ok 201 "User registered successfully" := by
        simp [signup, hcond]
      refine ⟨Or.inl (by rw [hres]; rfl), by rw [hres]; decide, ?_⟩
      intro hbad
      exfalso
      apply hcond
      rcases hbad with hf | hp | ⟨u, hu, he⟩
      · simp [hf]
      · exact nomatch hp
      · have : db.users.any (fun v => v.email == email.getD "") = true := by
          rw [List.any_eq_true]
          exact ⟨u, hu, by rw [he]; simp⟩
        simp [this]

/-- Witness for C10 on a concrete duplicate-email signup. -/
theorem C10_witness :
    (signup hash0 dbC10 false (some "a@x.com") (some "again")).1
      = .err 400 "User already exists or invalid data" :=
  (C10_signup_failures hash0 dbC10 false (some "a@x.com") (some "again")).2.2
    (Or.inr (Or.inr ⟨⟨1, "a@x.com", "pw1"⟩, by decide, rfl⟩))
